import Mathlib

/-!
Verification of the nocciolo kernel core against its specification.

Shallow embedding of the kernel's Rust sources into Lean:
machine integers are modelled as `Nat` (with explicit masking where the
source masks), I/O side effects as explicit event lists, and global
mutable state as explicit state passing.  Each definition is translated
from a named function of the repository under `src/kernel/src/`.
-/

namespace Nocciolo

/-! ## Shutdown machine (src/kernel/src/meta/system.rs) -/

/-- Event emitted when the kernel touches an x86 I/O port. -/
inductive PortEvent where
  | write (port : Nat) (value : Nat)
  | read (port : Nat)
  deriving DecidableEq, Repr

/-- Model of `AmlValue` from the `aml` crate, restricted to the shapes
`perform_acpi_sleep` inspects: an `Integer` or anything else. -/
inductive AmlValue where
  | Integer (v : Nat)
  | NotInteger
  deriving DecidableEq, Repr

/-- Model of `acpi::address::AddressSpace`, restricted to the discrimination made in
`perform_acpi_sleep`. -/
inductive AddressSpace where
  | SystemIo
  | SystemMemory
  deriving DecidableEq, Repr

/-- Model of `acpi::address::GenericAddress`: the two fields read by
`perform_acpi_sleep`. -/
structure GenericAddress where
  address_space : AddressSpace
  address : Nat
  deriving DecidableEq, Repr

/-- Model of `AcpiShutdownErrorKind` from src/kernel/src/meta/system.rs
(constructors reachable from `perform_acpi_sleep`). -/
inductive AcpiShutdownErrorKind where
  | S5ValueNotInteger
  | S5ValueOutsideWordSize (v : Nat)
  | PmControlBlockNotInSystemIoSpace (s : AddressSpace)
  | PmControlAddressNotInIoPortRange (a : Nat)
  deriving DecidableEq, Repr

/-- Model of `const ACPI_SLP_EN: u16 = 1 << 13;` from src/kernel/src/meta/system.rs. -/
def ACPI_SLP_EN : Nat := 1 <<< 13

/-- Model of `perform_acpi_sleep` from src/kernel/src/meta/system.rs: validates the
`\_S5_` element and the PM control block, then writes
`ACPI_SLP_EN | sleep_type` (u16) to the control block's I/O port.
Returns the port write it performs. -/
def perform_acpi_sleep (s5_value : AmlValue) (control_block : GenericAddress) :
    Except AcpiShutdownErrorKind PortEvent :=
  match s5_value with
  | .NotInteger => .error .S5ValueNotInteger
  | .Integer sleep_type =>
    if sleep_type > 0xFFFF then
      .error (.S5ValueOutsideWordSize sleep_type)
    else if control_block.address_space ≠ .SystemIo then
      .error (.PmControlBlockNotInSystemIoSpace control_block.address_space)
    else if control_block.address > 0xFFFF then
      .error (.PmControlAddressNotInIoPortRange control_block.address)
    else
      .ok (.write control_block.address (ACPI_SLP_EN ||| sleep_type))

/-! ## AML PCI bridge (src/kernel/src/device/acpi/mod.rs) -/

/-- Model of `PciRequest` from src/kernel/src/device/acpi/mod.rs. -/
structure PciRequest where
  segment : Nat
  bus : Nat
  device : Nat
  function : Nat
  offset : Nat
  deriving DecidableEq, Repr

/-- Model of `PciRequest::address` from src/kernel/src/device/acpi/mod.rs:
`(bus << 16) | (device << 11) | (function << 8) | (offset & 0xFC) | 0x80000000`. -/
def PciRequest.address (r : PciRequest) : Nat :=
  (r.bus <<< 16) ||| (r.device <<< 11) ||| (r.function <<< 8) |||
    (r.offset &&& 0xFC) ||| 0x80000000

/-- Model of `aml_read_pci` from src/kernel/src/device/acpi/mod.rs, as the sequence of
port accesses it performs: it writes the encoded address to port 0xCF8 and
then reads from port 0xCF8 again (both `Port::new(0xCF8)` in the source). -/
def aml_read_pci (request : PciRequest) : List PortEvent :=
  [.write 0xCF8 request.address, .read 0xCF8]

/-- Model of `aml_write_pci` from src/kernel/src/device/acpi/mod.rs, as the sequence of
port accesses it performs: the function body only emits a trace log and
touches no I/O port. -/
def aml_write_pci (_request : PciRequest) (_value : Nat) : List PortEvent :=
  []

/-! ## PCI enumeration (src/kernel/src/device/pci/config.rs) -/

/-- Model of `PciAddress` from src/kernel/src/device/pci/types.rs. -/
structure PciAddress where
  segment : Nat
  bus : Nat
  device : Nat
  function : Nat
  deriving DecidableEq, Repr

/-- A `ConfigurationSpaceMechanism` abstracted by its `read_word` method
(the only method the enumerator reaches, through `vendor_id`/`device_id`). -/
def Mechanism : Type := PciAddress → Nat → Nat

/-- Model of `PciVendorId::INVALID` from src/kernel/src/device/pci/types.rs. -/
def PciVendorId.INVALID : Nat := 0xFFFF

/-- Model of `ConfigurationSpaceMechanism::vendor_id`: `read_word(addr, 0x0)`. -/
def vendor_id (m : Mechanism) (addr : PciAddress) : Nat := m addr 0x0

/-- Model of `ConfigurationSpaceMechanism::device_id`: `read_word(addr, 0x2)`. -/
def device_id (m : Mechanism) (addr : PciAddress) : Nat := m addr 0x2

/-- Model of `DeviceEnumerator::next` from src/kernel/src/device/pci/config.rs.
State is the struct's `(bus, device)` fields; the nested `while` loops are
unrolled into fuel-indexed recursion (any fuel above `256*33` is enough for a
full run, each recursive call consumes one unit).  Note the source never
resets `device` when `bus` is incremented. -/
def DeviceEnumerator.next (m : Mechanism) :
    Nat → Nat → Nat → Option ((PciAddress × Nat × Nat) × Nat × Nat)
  | 0, _, _ => none
  | fuel + 1, bus, device =>
    if bus < 256 then
      if device < 32 then
        let addr : PciAddress := ⟨0, bus, device, 0⟩
        let device := device + 1
        let v := vendor_id m addr
        if v ≠ PciVendorId.INVALID then
          some ((addr, v, device_id m addr), bus, device)
        else
          DeviceEnumerator.next m fuel bus device
      else
        DeviceEnumerator.next m fuel (bus + 1) device
    else
      none

/-- Driving `DeviceEnumerator::next` to exhaustion from a given state,
collecting every yielded item (the enumerator yields at most `256*32`
items, so the item fuel `8192` never runs out before `next` returns
`None`). -/
def DeviceEnumerator.run (m : Mechanism) : Nat → Nat → Nat → List (PciAddress × Nat × Nat)
  | 0, _, _ => []
  | fuel + 1, bus, device =>
    match DeviceEnumerator.next m 10000 bus device with
    | none => []
    | some (item, bus, device) => item :: DeviceEnumerator.run m fuel bus device

/-- Model of `ConfigurationSpaceMechanism::enumerate`, run to exhaustion: the
enumerator starts with `device: 0, bus: 0`. -/
def enumerate (m : Mechanism) : List (PciAddress × Nat × Nat) :=
  DeviceEnumerator.run m 8192 0 0

/-- Concrete mechanism for exercising `enumerate`: one present device at
bus 1, device 0 (vendor id 0x8086, device id 0x100E); every other
configuration read returns the absent pattern 0xFFFF. -/
def mechBus1 : Mechanism := fun addr offset =>
  if addr.bus = 1 ∧ addr.device = 0 ∧ addr.function = 0 ∧ offset = 0x0 then 0x8086
  else if addr.bus = 1 ∧ addr.device = 0 ∧ addr.function = 0 ∧ offset = 0x2 then 0x100E
  else 0xFFFF

/-! ## I/O APIC redirection table (src/kernel/src/interrupts/apic/io.rs) -/

/-- Model of `IOApicRedirectionEntry` from src/kernel/src/interrupts/apic/io.rs;
each field holds the raw bit pattern of its `#[repr(u8)]` enum
(`InterruptMask::Unmasked = 0`, `Masked = 1`, etc.). -/
structure IOApicRedirectionEntry where
  vector : Nat
  delivery_mode : Nat
  destination_mode : Nat
  delivery_status : Nat
  polarity : Nat
  remote_irr : Nat
  trigger_mode : Nat
  mask : Nat
  destination : Nat
  deriving DecidableEq, Repr

/-- Model of `InterruptMask::Unmasked = 0`. -/
def InterruptMask.Unmasked : Nat := 0

/-- Model of `InterruptMask::Masked = 1`. -/
def InterruptMask.Masked : Nat := 1

/-- Model of `DestinationField::new` from src/kernel/src/interrupts/apic/io.rs:
a physical destination keeps only its low 4 bits. -/
def DestinationField.new (mode : Nat) (value : Nat) : Nat :=
  if mode = 0 then value &&& 0b1111 else value

/-- Field extraction of `IOApic::read_entry`
(src/kernel/src/interrupts/apic/io.rs) from the raw 64-bit register pair. -/
def decodeEntry (value : Nat) : IOApicRedirectionEntry :=
  let destination_mode := (value >>> 11) &&& 0b1
  { vector := value &&& 0xFF
    delivery_mode := (value >>> 8) &&& 0b111
    destination_mode := destination_mode
    delivery_status := (value >>> 12) &&& 0b1
    polarity := (value >>> 13) &&& 0b1
    remote_irr := (value >>> 14) &&& 0b1
    trigger_mode := (value >>> 15) &&& 0b1
    mask := (value >>> 16) &&& 0b1
    destination := DestinationField.new destination_mode ((value >>> 56) &&& 0xFF) }

/-- Value assembly of `IOApic::write_entry`
(src/kernel/src/interrupts/apic/io.rs): the low dword packs the control
fields, the high dword holds `destination << 24` (bits 56..63 overall). -/
def encodeEntry (entry : IOApicRedirectionEntry) : Nat :=
  let value_lo := entry.vector
    ||| (entry.delivery_mode <<< 8)
    ||| (entry.destination_mode <<< 11)
    ||| (entry.delivery_status <<< 12)
    ||| (entry.polarity <<< 13)
    ||| (entry.remote_irr <<< 14)
    ||| (entry.trigger_mode <<< 15)
    ||| (entry.mask <<< 16)
  let value_hi := entry.destination <<< 24
  value_lo ||| (value_hi <<< 32)

/-- The redirection table as the kernel sees it: one raw 64-bit value per
redirection entry; `redirection_entry_count` is the list length. -/
abbrev RedirTable : Type := List Nat

/-- Model of `IOApic::read_entry` on the abstract redirection table. -/
def read_entry (t : RedirTable) (index : Nat) : IOApicRedirectionEntry :=
  decodeEntry (t.getD index 0)

/-- Model of `IOApic::write_entry` on the abstract redirection table. -/
def write_entry (t : RedirTable) (index : Nat) (entry : IOApicRedirectionEntry) :
    RedirTable :=
  t.set index (encodeEntry entry)

/-- One iteration of the loop in `IOApic::map_all_to_spurious_vectors`
(src/kernel/src/interrupts/apic/io.rs, lines 107-118): read the entry; if its
mask is `Unmasked`, `continue`; otherwise set the vector to `100 + index`
(u8 arithmetic, hence mod 256), unmask it, and write it back. -/
def mapAllStep (t : RedirTable) (index : Nat) : RedirTable :=
  let entry := read_entry t index
  if entry.mask = InterruptMask.Unmasked then
    t
  else
    let entry := { entry with vector := (100 + index) % 256,
                              mask := InterruptMask.Unmasked }
    write_entry t index entry

/-- Model of `IOApic::map_all_to_spurious_vectors`: the `for index in
0..self.redirection_entry_count` loop over `mapAllStep`. -/
def map_all_to_spurious_vectors (t : RedirTable) : RedirTable :=
  (List.range t.length).foldl mapAllStep t

/-- Model of `InterruptIndex::Timer = PIC_1_OFFSET = 32` (src/kernel/src/interrupts.rs). -/
def InterruptIndex.Timer : Nat := 32

/-- Model of `InterruptIndex::Keyboard = PIC_1_OFFSET + 1 = 33`
(src/kernel/src/interrupts.rs). -/
def InterruptIndex.Keyboard : Nat := 33

/-- Model of `IOApic::map` from src/kernel/src/interrupts/apic/io.rs: unmask the
entry and point its vector at the given interrupt index. -/
def IOApic.map (t : RedirTable) (index : Nat) (ivector : Nat) : RedirTable :=
  let entry := read_entry t index
  let entry := { entry with mask := InterruptMask.Unmasked, vector := ivector }
  write_entry t index entry

/-- Model of `IOApic::initialize` from src/kernel/src/interrupts/apic/io.rs:
`self.map(2, InterruptIndex::Timer)` followed by
`self.map_all_to_spurious_vectors()`. -/
def IOApic.initialize (t : RedirTable) : RedirTable :=
  map_all_to_spurious_vectors (IOApic.map t 2 InterruptIndex.Timer)

/-! ## ACPI physical-region mapper (src/kernel/src/device/acpi/handler.rs) -/

/-- Model of `PhysAddr::align_down(4096)`. -/
def align_down (a : Nat) : Nat := a - a % 4096

/-- Model of `PhysAddr::align_up(4096)` (no wrap: addresses stay inside u64 in every
use the kernel makes of it). -/
def align_up (a : Nat) : Nat := ((a + 4095) / 4096) * 4096

/-- Model of `PageAllocator::allocate_n` from src/kernel/src/allocator/page.rs: a
monotone bump allocator; returns the current address and the advanced
allocator state.  (The source asserts `n ≠ 0`; every caller below passes
`n ≥ 1`.) -/
def PageAllocator.allocate_n (addr : Nat) (n : Nat) : Nat × Nat :=
  (addr, addr + n * 4096)

/-- Model of `acpi::PhysicalMapping`, restricted to the four numeric fields
`NoccioloAcpiHandler::map_physical_region` fills in. -/
structure PhysicalMapping where
  physical_start : Nat
  virtual_start : Nat
  region_length : Nat
  mapped_length : Nat
  deriving DecidableEq, Repr

/-- Model of `NoccioloAcpiHandler::map_physical_region` from
src/kernel/src/device/acpi/handler.rs, with the page allocator's bump
address threaded explicitly.  Returns the mapping and the new allocator
state. -/
def map_physical_region (allocAddr : Nat) (physical_address size : Nat) :
    PhysicalMapping × Nat :=
  let start := align_down physical_address
  let stop := align_up (physical_address + size)
  let page_count := (stop - start) / 4096
  let (virt, allocAddr) := PageAllocator.allocate_n allocAddr page_count
  let mapped_length := stop - start
  let virt_offset := physical_address % 4096
  let virt_ptr := virt + virt_offset
  (⟨physical_address, virt_ptr, size, mapped_length⟩, allocAddr)

/-! ## Frame allocator (src/kernel/src/memory.rs) -/

/-- Model of `bootloader_api::info::MemoryRegionKind`, restricted to the
discrimination `usable_frames` makes. -/
inductive MemoryRegionKind where
  | Usable
  | Other
  deriving DecidableEq, Repr

/-- Model of `bootloader_api::info::MemoryRegion`. -/
structure MemoryRegion where
  start : Nat
  stop : Nat
  kind : MemoryRegionKind
  deriving DecidableEq, Repr

/-- Rust's `(start..stop).step_by(4096)`: the addresses
`start, start+4096, ...` strictly below `stop`. -/
def rangeStepBy4096 (start stop : Nat) : List Nat :=
  (List.range ((stop - start + 4095) / 4096)).map (fun k => start + 4096 * k)

/-- Model of `BootInfoFrameAllocator` from src/kernel/src/memory.rs: the static
memory-region slice plus the `next` counter. -/
structure BootInfoFrameAllocator where
  memory_regions : List MemoryRegion
  next : Nat
  deriving DecidableEq, Repr

/-- Model of `BootInfoFrameAllocator::usable_frames` from src/kernel/src/memory.rs:
filter the `Usable` regions, step each by 4096, and map each address through
`PhysFrame::containing_address` (which aligns down to 4096). -/
def usable_frames (a : BootInfoFrameAllocator) : List Nat :=
  (((a.memory_regions.filter (fun r => r.kind = MemoryRegionKind.Usable)).map
      (fun r => rangeStepBy4096 r.start r.stop)).flatten).map align_down

/-- Model of `BootInfoFrameAllocator::allocate_frame` from src/kernel/src/memory.rs:
`usable_frames().nth(next)`, incrementing `next` unconditionally. -/
def allocate_frame (a : BootInfoFrameAllocator) :
    Option Nat × BootInfoFrameAllocator :=
  let frame := (usable_frames a).get? a.next
  (frame, { a with next := a.next + 1 })

/-- Model of `BootInfoFrameAllocator::allocate_frame_from_physical` from
src/kernel/src/memory.rs: align the pointer down and scan `usable_frames`
for a frame with that start address; the allocator state is returned
unchanged (the source only reads `self`). -/
def allocate_frame_from_physical (a : BootInfoFrameAllocator) (ptr : Nat) :
    Option Nat × BootInfoFrameAllocator :=
  let ptr := align_down ptr
  ((usable_frames a).find? (fun frame => frame = ptr), a)

/-- Iterate `allocate_frame` `n` times, collecting the results in call
order. -/
def allocate_frames (a : BootInfoFrameAllocator) :
    Nat → List (Option Nat) × BootInfoFrameAllocator
  | 0 => ([], a)
  | n + 1 =>
    let (frame, a) := allocate_frame a
    let (rest, a) := allocate_frames a n
    (frame :: rest, a)

/-! ## Scancode queue (src/kernel/src/task/keyboard.rs) -/

/-- Capacity of the scancode queue: `ArrayQueue::new(100)` in
`ScancodeStream::new` (src/kernel/src/task/keyboard.rs). -/
def SCANCODE_QUEUE_CAPACITY : Nat := 100

/-- Result of one `add_scancode` call: the queue cell afterwards (`none`
models the `OnceCell` still uninitialized), whether `WAKER.wake()` ran, and
whether a `warn!` line was logged. -/
structure AddScancodeResult where
  queue : Option (List Nat)
  woke : Bool
  warned : Bool
  deriving DecidableEq, Repr

/-- Model of `add_scancode` from src/kernel/src/task/keyboard.rs: if the queue cell
is initialized, try to push (an `ArrayQueue` push fails exactly when the
queue holds `capacity` elements); wake the waker on success, log a warning
on failure.  If the cell is uninitialized, only log a warning. -/
def add_scancode (queue : Option (List Nat)) (scancode : Nat) : AddScancodeResult :=
  match queue with
  | some q =>
    if q.length < SCANCODE_QUEUE_CAPACITY then
      ⟨some (q ++ [scancode]), true, false⟩
    else
      ⟨some q, false, true⟩
  | none => ⟨none, false, true⟩

/-! ## Keyboard interrupt handler (src/kernel/src/interrupts.rs) -/

/-- The externally visible steps of an interrupt handler. -/
inductive HandlerEvent where
  | readPort (port : Nat)
  | addScancode (b : Nat)
  | picEOI (ivector : Nat)
  | lapicEOI
  deriving DecidableEq, Repr

/-- Kernel state visible to `keyboard_interrupt_handler`: the byte waiting
at I/O port 0x60, the scancode queue cell, and whether a `LocalApic`
instance has been published (`LocalApic::exists()`). -/
structure KeyboardIrqState where
  port60 : Nat
  scancodeQueue : Option (List Nat)
  localApicPresent : Bool
  deriving DecidableEq, Repr

/-- Model of `keyboard_interrupt_handler` from src/kernel/src/interrupts.rs: read one
byte from port 0x60, hand it to `add_scancode`, then
`PICS.lock().notify_end_of_interrupt(InterruptIndex::Keyboard)`.  The
handler never consults the `LocalApic` instance. -/
def keyboard_interrupt_handler (st : KeyboardIrqState) :
    List HandlerEvent × AddScancodeResult :=
  let scancode := st.port60
  let r := add_scancode st.scancodeQueue scancode
  ([.readPort 0x60, .addScancode scancode, .picEOI InterruptIndex.Keyboard], r)

/-! ## Helper lemmas -/

set_option maxRecDepth 100000

/-- Pointwise effect of one `map_all_to_spurious_vectors` iteration on the
entry it visits. -/
def spuriousUpdate (index v : Nat) : Nat :=
  let entry := decodeEntry v
  if entry.mask = InterruptMask.Unmasked then v
  else
    encodeEntry { entry with vector := (100 + index) % 256,
                             mask := InterruptMask.Unmasked }

theorem getD_eq_default_of_le {l : List Nat} {i d : Nat} (h : l.length ≤ i) :
    l.getD i d = d := by
  simp [List.getD, List.getElem?_eq_none h]

theorem mapAllStep_length (t : RedirTable) (j : Nat) :
    (mapAllStep t j).length = t.length := by
  unfold mapAllStep write_entry
  dsimp only
  split <;> simp

theorem getD_mapAllStep_ne (t : RedirTable) {i j : Nat} (h : i ≠ j) :
    (mapAllStep t j).getD i 0 = t.getD i 0 := by
  unfold mapAllStep write_entry
  dsimp only
  split
  · rfl
  · simp [List.getD, List.getElem?_set_ne (Ne.symm h)]

theorem getD_mapAllStep_self (t : RedirTable) (j : Nat) :
    (mapAllStep t j).getD j 0 = spuriousUpdate j (t.getD j 0) := by
  unfold mapAllStep spuriousUpdate write_entry read_entry
  dsimp only
  split
  · simp_all
  · rcases Nat.lt_or_ge j t.length with hj | hj
    · simp_all [List.getD, List.getElem?_set_eq_of_lt _ hj]
    · exfalso
      rename_i hmask
      rw [getD_eq_default_of_le hj] at hmask
      simp [decodeEntry, InterruptMask.Unmasked, DestinationField.new] at hmask

theorem foldl_mapAllStep_getD (t : RedirTable) (n i : Nat) :
    ((List.range n).foldl mapAllStep t).getD i 0 =
      if i < n then spuriousUpdate i (t.getD i 0) else t.getD i 0 := by
  induction n generalizing i with
  | zero => simp
  | succ n ih =>
    rw [List.range_succ, List.foldl_append]
    simp only [List.foldl_cons, List.foldl_nil]
    by_cases hin : i = n
    · subst hin
      rw [getD_mapAllStep_self, ih i]
      simp [Nat.lt_irrefl]
    · rw [getD_mapAllStep_ne _ hin, ih i]
      rcases Nat.lt_or_ge i n with h | h
      · simp [h, Nat.lt_succ_of_lt h]
      · have h1 : ¬ i < n := Nat.not_lt.mpr h
        have h2 : ¬ i < n + 1 := by omega
        simp [h1, h2]

theorem align_up_ge (x : Nat) : x ≤ align_up x := by
  unfold align_up
  have h1 := Nat.div_add_mod (x + 4095) 4096
  have h2 : (x + 4095) % 4096 < 4096 := Nat.mod_lt _ (by norm_num)
  omega

/-! ## Claim statements drawn from the spec's words (for refutation) -/

/-- The spec's description of `map_all_to_spurious_vectors` at one index:
an `Unmasked` entry is rewritten with vector `100 + i` and left unmasked,
a `Masked` entry is left unchanged. -/
def mapAllSpecClaim (t : RedirTable) (i : Nat) : Prop :=
  (map_all_to_spurious_vectors t).getD i 0 =
    if (read_entry t i).mask = InterruptMask.Unmasked then
      encodeEntry { read_entry t i with vector := (100 + i) % 256,
                                        mask := InterruptMask.Unmasked }
    else
      t.getD i 0

/-- The spec's description of the keyboard interrupt handler's trace:
read port 0x60, enqueue the byte, then EOI to the Local APIC when one is
present and to the legacy PIC otherwise. -/
def keyboardEoiSpecClaim (st : KeyboardIrqState) : Prop :=
  (keyboard_interrupt_handler st).1 =
    [.readPort 0x60, .addScancode st.port60,
      if st.localApicPresent then .lapicEOI else .picEOI InterruptIndex.Keyboard]

/-! ## Claims -/

/-- C1: the claim says the ACPI shutdown path writes
`(t << 10) | (1 << 13)` to the PM1a control port (0x3400 for `t = 5`,
port 0x604).  The code instead writes `ACPI_SLP_EN | t`: for the
`\_S5_` sleep type 5 and the System I/O control block at 0x604 it emits the
16-bit value 0x2005, not 0x3400. -/
theorem C1_perform_acpi_sleep_value :
    perform_acpi_sleep (.Integer 5) ⟨.SystemIo, 0x604⟩ =
      .ok (.write 0x604 0x2005) ∧ (0x2005 : Nat) ≠ (5 <<< 10) ||| (1 <<< 13) := by
  constructor
  · rfl
  · decide

/-- C2: the claim says every address with vendor id ≠ 0xFFFF on any bus
0..=255 is yielded exactly once.  The code never resets `device` to 0 when
it advances `bus`, so only bus 0 is ever scanned: with a device present at
bus 1, device 0 (vendor 0x8086) and every bus-0 slot absent, the full
enumeration run yields nothing at all. -/
theorem C2_enumerate_skips_nonzero_bus :
    vendor_id mechBus1 ⟨0, 1, 0, 0⟩ = 0x8086 ∧
    (0x8086 : Nat) ≠ PciVendorId.INVALID ∧
    enumerate mechBus1 = [] := by
  refine ⟨rfl, by decide, by decide⟩

/-- C3 counterexample: a single redirection entry that reads `Unmasked`
with vector 7 is left untouched by `map_all_to_spurious_vectors`, while the
claim demands it be rewritten with vector 100 + 0. -/
theorem C3_counterexample : ¬ mapAllSpecClaim [7] 0 := by
  unfold mapAllSpecClaim
  decide

/-- C3 (amended): during `map_all_to_spurious_vectors`, for every index
below the redirection-entry count, an entry whose mask reads `Unmasked` is
left unchanged, and an entry whose mask reads `Masked` is rewritten with
vector `(100 + index) % 256` and unmasked. -/
theorem C3_map_all_masked_rewritten (t : RedirTable) (i : Nat)
    (hi : i < t.length) :
    (map_all_to_spurious_vectors t).getD i 0 =
      if (read_entry t i).mask = InterruptMask.Unmasked then
        t.getD i 0
      else
        encodeEntry { read_entry t i with vector := (100 + i) % 256,
                                          mask := InterruptMask.Unmasked } := by
  unfold map_all_to_spurious_vectors
  rw [foldl_mapAllStep_getD t t.length i]
  simp only [hi, if_pos]
  unfold spuriousUpdate read_entry
  split <;> simp_all

/-- C3 witness: at the concrete table `[7, 0x10000]` (entry 0 unmasked,
entry 1 masked), index 1 is rewritten with vector 101 and unmasked. -/
theorem C3_map_all_masked_rewritten_witness :
    1 < ([7, 0x10000] : RedirTable).length ∧
    (map_all_to_spurious_vectors [7, 0x10000]).getD 1 0 =
      if (read_entry [7, 0x10000] 1).mask = InterruptMask.Unmasked then
        ([7, 0x10000] : RedirTable).getD 1 0
      else
        encodeEntry { read_entry [7, 0x10000] 1 with vector := (100 + 1) % 256,
                                                     mask := InterruptMask.Unmasked } :=
  ⟨by decide, C3_map_all_masked_rewritten [7, 0x10000] 1 (by decide)⟩

/-- C4: `map_physical_region(phys, size)` with `size > 0` returns a mapping
with `region_length = size`,
`mapped_length = align_up(phys + size) - align_down(phys)`,
`virtual_start = (allocated page-run base) + phys % 4096`, and consequently
`mapped_length ≥ region_length + phys % 4096`. -/
theorem C4_map_physical_region_shape (allocAddr phys size : Nat)
    (_hsize : 0 < size) :
    ((map_physical_region allocAddr phys size).1.region_length = size) ∧
    ((map_physical_region allocAddr phys size).1.mapped_length =
      align_up (phys + size) - align_down phys) ∧
    ((map_physical_region allocAddr phys size).1.virtual_start =
      allocAddr + phys % 4096) ∧
    ((map_physical_region allocAddr phys size).1.region_length + phys % 4096 ≤
      (map_physical_region allocAddr phys size).1.mapped_length) := by
  refine ⟨rfl, rfl, rfl, ?_⟩
  show size + phys % 4096 ≤ align_up (phys + size) - align_down phys
  have h1 : phys + size ≤ align_up (phys + size) := align_up_ge _
  have h2 : align_down phys = phys - phys % 4096 := rfl
  have h3 : phys % 4096 ≤ phys := Nat.mod_le _ _
  omega

/-- C4 witness: the shape properties at `phys = 0x1234`, `size = 10`,
allocator base `0x1_000_000_000`. -/
theorem C4_map_physical_region_shape_witness :
    0 < 10 ∧
    (((map_physical_region 0x1000000000 0x1234 10).1.region_length = 10) ∧
    ((map_physical_region 0x1000000000 0x1234 10).1.mapped_length =
      align_up (0x1234 + 10) - align_down 0x1234) ∧
    ((map_physical_region 0x1000000000 0x1234 10).1.virtual_start =
      0x1000000000 + 0x1234 % 4096) ∧
    ((map_physical_region 0x1000000000 0x1234 10).1.region_length + 0x1234 % 4096 ≤
      (map_physical_region 0x1000000000 0x1234 10).1.mapped_length)) :=
  ⟨by decide, C4_map_physical_region_shape 0x1000000000 0x1234 10 (by decide)⟩

/-- C5: the claim says every AML PCI configuration access programs port
0xCF8 with the encoded address and then accesses the data on port 0xCFC.
The code encodes the address correctly and writes it to 0xCF8, but then
reads the data back from port 0xCF8 itself (never 0xCFC), and an AML PCI
write performs no port access at all. -/
theorem C5_aml_pci_ports :
    PciRequest.address ⟨0, 0, 2, 0, 0⟩ = 0x80001000 ∧
    aml_read_pci ⟨0, 0, 2, 0, 0⟩ =
      [.write 0xCF8 0x80001000, .read 0xCF8] ∧
    PortEvent.read 0xCFC ∉ aml_read_pci ⟨0, 0, 2, 0, 0⟩ ∧
    (∀ r v, aml_write_pci r v = []) := by
  refine ⟨by decide, by decide, by decide, fun r v => rfl⟩

/-- C6 counterexample: with a Local APIC instance present, the handler's
trace still ends with a legacy-PIC EOI, not a Local APIC EOI as the claim
demands. -/
theorem C6_counterexample :
    ¬ keyboardEoiSpecClaim ⟨0xAB, some [], true⟩ := by
  unfold keyboardEoiSpecClaim
  decide

/-- C6 (amended): on every keyboard interrupt the handler reads exactly one
byte from port 0x60, passes it to `add_scancode`, and then signals
end-of-interrupt to the legacy PIC unconditionally — it never signals the
Local APIC, whether or not one is present. -/
theorem C6_keyboard_handler_always_pic_eoi (st : KeyboardIrqState) :
    (keyboard_interrupt_handler st).1 =
      [.readPort 0x60, .addScancode st.port60, .picEOI InterruptIndex.Keyboard] ∧
    HandlerEvent.lapicEOI ∉ (keyboard_interrupt_handler st).1 ∧
    (keyboard_interrupt_handler st).2 = add_scancode st.scancodeQueue st.port60 := by
  refine ⟨rfl, ?_, rfl⟩
  simp [keyboard_interrupt_handler]

/-- C7: with a single `Usable` region `[0x10_0000, 0x20_0000)`, the first
four `allocate_frame` calls return the frames at 0x10_0000, 0x10_1000,
0x10_2000, 0x10_3000 in that order, and the 257th call returns `None`. -/
theorem C7_frame_allocator_scenario :
    ((allocate_frames ⟨[⟨0x100000, 0x200000, .Usable⟩], 0⟩ 257).1.take 4 =
      [some 0x100000, some 0x101000, some 0x102000, some 0x103000]) ∧
    ((allocate_frames ⟨[⟨0x100000, 0x200000, .Usable⟩], 0⟩ 257).1.getD 256 (some 0) =
      none) := by
  constructor
  · decide
  · decide

/-- C8: once the queue is initialized, `add_scancode` pushes the byte and
wakes the waker when the queue holds fewer than 100 bytes; when the queue
is full (100 bytes) the byte is dropped, the waker is not woken, and the
queue is unchanged. -/
theorem C8_add_scancode_behaviour (q : List Nat) (b : Nat) :
    (q.length < SCANCODE_QUEUE_CAPACITY →
      add_scancode (some q) b = ⟨some (q ++ [b]), true, false⟩) ∧
    (q.length = SCANCODE_QUEUE_CAPACITY →
      add_scancode (some q) b = ⟨some q, false, true⟩) := by
  constructor
  · intro h
    simp [add_scancode, h]
  · intro h
    simp [add_scancode, h]

/-- C8 witness: pushing onto the empty queue succeeds and wakes; pushing
onto a 100-byte queue drops the byte without waking. -/
theorem C8_add_scancode_behaviour_witness :
    add_scancode (some ([] : List Nat)) 5 = ⟨some [5], true, false⟩ ∧
    add_scancode (some (List.replicate 100 0)) 5 =
      ⟨some (List.replicate 100 0), false, true⟩ :=
  ⟨(C8_add_scancode_behaviour [] 5).1 (by decide),
   (C8_add_scancode_behaviour (List.replicate 100 0) 5).2 (by decide)⟩

/-- C9: `allocate_frame_from_physical` never changes the allocator state
(in particular its `next` counter), whichever result it returns; hence a
frame it returns can later also be handed out by `allocate_frame`, as the
concrete run shows (the frame 0x101000 is returned by both). -/
theorem C9_allocate_frame_from_physical_pure :
    (∀ (a : BootInfoFrameAllocator) (p : Nat),
      (allocate_frame_from_physical a p).2 = a) ∧
    ((allocate_frame_from_physical ⟨[⟨0x100000, 0x200000, .Usable⟩], 1⟩ 0x101800).1 =
      some 0x101000) ∧
    ((allocate_frame
        (allocate_frame_from_physical ⟨[⟨0x100000, 0x200000, .Usable⟩], 1⟩ 0x101800).2).1 =
      some 0x101000) := by
  refine ⟨fun a p => rfl, by decide, by decide⟩

/-- C10: calling `add_scancode` before the scancode queue has been
initialized returns normally, discards the byte, wakes no waker, and only
logs a warning. -/
theorem C10_add_scancode_uninitialized (b : Nat) :
    add_scancode none b = ⟨none, false, true⟩ := by
  rfl

end Nocciolo
